import Mathlib

/-!
Verification of the `locator` geolocation service.

The numeric embedding idealises Rust `f64` arithmetic as real-number
arithmetic (`ℝ`): the source's additions, multiplications, divisions,
`powf`, trigonometry and comparisons are translated to the corresponding
exact real operations.  Runtime configuration values (`CONFIG.…`) are
passed as explicit parameters.  Rust `HashMap`s are modelled as
association lists whose order fixes the (unspecified) iteration order of
the original map.  Discrete code (strings, retry loops, key rotation) is
embedded with computable definitions.
-/

open scoped Classical

namespace Locator

/-! ## Constants (src/constants.rs) -/

/-- `SIGNAL_DROP_COEFFICIENT` from src/constants.rs (value `3.0`). -/
noncomputable def SIGNAL_DROP_COEFFICIENT : ℝ := 3

/-- `MAX_SCOOTER_SPEED` from src/constants.rs (25 km/h). -/
noncomputable def MAX_SCOOTER_SPEED : ℝ := 25

/-- `MAX_DISTANCE` from src/constants.rs (60 000 m). -/
noncomputable def MAX_DISTANCE : ℝ := 60000

/-- `HOUR` from src/constants.rs (3600 s). -/
def HOUR : ℕ := 3600

/-! ## Spatial primitives

The `geo` crate's `Haversine::distance` on two points given in degrees:
it converts to radians and applies the haversine formula with the mean
Earth radius 6 371 008.8 m. -/

/-- Mean Earth radius used by the `geo` crate's Haversine distance. -/
noncomputable def MEAN_EARTH_RADIUS : ℝ := 6371008.8

/-- Degrees to radians, as `f64::to_radians`. -/
noncomputable def toRadians (d : ℝ) : ℝ := d * Real.pi / 180

/-- `Haversine::distance` of the `geo` crate, on `(lon, lat)` pairs in
degrees. -/
noncomputable def haversineDistance (lon1 lat1 lon2 lat2 : ℝ) : ℝ :=
  let theta1 := toRadians lat1
  let theta2 := toRadians lat2
  let deltaTheta := toRadians (lat2 - lat1)
  let deltaLambda := toRadians (lon2 - lon1)
  let a := Real.sin (deltaTheta / 2) ^ 2 +
    Real.cos theta1 * Real.cos theta2 * Real.sin (deltaLambda / 2) ^ 2
  let c := 2 * Real.arcsin (Real.sqrt a)
  MEAN_EARTH_RADIUS * c

/-- The haversine distance from a point to itself is zero. -/
theorem haversineDistance_self (lon lat : ℝ) :
    haversineDistance lon lat lon lat = 0 := by
  unfold haversineDistance toRadians
  simp

/-- `Point` from src/services/locate/dbscan/point.rs. -/
structure Point where
  id : ℕ
  lon : ℝ
  lat : ℝ

/-- `Point::distance` (the `Proximity` impl): haversine distance of the
two `(lon, lat)` positions. -/
noncomputable def Point.distance (p q : Point) : ℝ :=
  haversineDistance p.lon p.lat q.lon q.lat

/-! ## TransmitterLocation (src/db/transmitter.rs) -/

/-- `TransmitterLocation` from src/db/transmitter.rs. -/
structure TransmitterLocation where
  mac : String
  min_lat : ℝ
  min_lon : ℝ
  max_lat : ℝ
  max_lon : ℝ
  lat : ℝ
  lon : ℝ
  accuracy : ℝ
  total_weight : ℝ
  min_strength : ℝ
  max_strength : ℝ
  measurements : Option (List ℕ)

namespace TransmitterLocation

/-- `TransmitterLocation::new`. -/
def new (mac : String) (lat lon accuracy weight strength : ℝ) :
    TransmitterLocation where
  mac := mac
  min_lat := lat
  min_lon := lon
  max_lat := lat
  max_lon := lon
  lat := lat
  lon := lon
  accuracy := accuracy
  total_weight := weight
  min_strength := strength
  max_strength := strength
  measurements := none

/-- `TransmitterLocation::update`: expand the bounding box, fold the new
observation into the weighted averages, accumulate the weight and expand
the strength range. -/
noncomputable def update (s : TransmitterLocation)
    (lat lon accuracy weight strength : ℝ) : TransmitterLocation :=
  let min_lat' := if lat < s.min_lat then lat else s.min_lat
  let max_lat' := if lat < s.min_lat then s.max_lat
    else if lat > s.max_lat then lat else s.max_lat
  let min_lon' := if lon < s.min_lon then lon else s.min_lon
  let max_lon' := if lon < s.min_lon then s.max_lon
    else if lon > s.max_lon then lon else s.max_lon
  let lat' := (s.lat * s.total_weight + lat * weight) / (s.total_weight + weight)
  let lon' := (s.lon * s.total_weight + lon * weight) / (s.total_weight + weight)
  let accuracy' := (s.accuracy * s.total_weight + accuracy * weight) /
    (s.total_weight + weight)
  let total_weight' := s.total_weight + weight
  let min_strength' := if strength < s.min_strength then strength else s.min_strength
  let max_strength' := if strength < s.min_strength then s.max_strength
    else if strength > s.max_strength then strength else s.max_strength
  { s with
    min_lat := min_lat', max_lat := max_lat'
    min_lon := min_lon', max_lon := max_lon'
    lat := lat', lon := lon', accuracy := accuracy'
    total_weight := total_weight'
    min_strength := min_strength', max_strength := max_strength' }

/-- `TransmitterLocation::valid`: the haversine distance from the
bounding-box SW corner (`min`) to the box centre lies in
`[0, radius_wifi_detection]`.  The configured radius is a parameter. -/
noncomputable def valid (s : TransmitterLocation) (radiusWifiDetection : ℝ) : Prop :=
  let d := haversineDistance s.min_lon s.min_lat
    ((s.min_lon + s.max_lon) / 2) ((s.min_lat + s.max_lat) / 2)
  0 ≤ d ∧ d ≤ radiusWifiDetection

end TransmitterLocation

/-- One `update` call's arguments (lat, lon, accuracy, weight, strength). -/
structure UpdateArgs where
  lat : ℝ
  lon : ℝ
  accuracy : ℝ
  weight : ℝ
  strength : ℝ

/-- Apply a sequence of `update` calls in order. -/
noncomputable def applyUpdates (s : TransmitterLocation) (us : List UpdateArgs) :
    TransmitterLocation :=
  us.foldl (fun t u => t.update u.lat u.lon u.accuracy u.weight u.strength) s

/-- Sum of the weights of a sequence of updates. -/
noncomputable def sumW (us : List UpdateArgs) : ℝ := (us.map (·.weight)).sum

/-- Weighted sum of the latitudes of a sequence of updates. -/
noncomputable def sumLatW (us : List UpdateArgs) : ℝ :=
  (us.map (fun u => u.lat * u.weight)).sum

/-- Weighted sum of the longitudes of a sequence of updates. -/
noncomputable def sumLonW (us : List UpdateArgs) : ℝ :=
  (us.map (fun u => u.lon * u.weight)).sum

/-- Weighted sum of the accuracies of a sequence of updates. -/
noncomputable def sumAccW (us : List UpdateArgs) : ℝ :=
  (us.map (fun u => u.accuracy * u.weight)).sum

theorem sumW_cons (u : UpdateArgs) (us : List UpdateArgs) :
    sumW (u :: us) = u.weight + sumW us := by simp [sumW]

theorem sumW_nonneg (us : List UpdateArgs) (h : ∀ u ∈ us, 0 < u.weight) :
    0 ≤ sumW us := by
  induction us with
  | nil => simp [sumW]
  | cons u us ih =>
    rw [sumW_cons]
    have h1 := h u (by simp)
    have h2 := ih (fun v hv => h v (by simp [hv]))
    linarith

/-- Generalised closed form for a fold of `update` calls over an arbitrary
starting record with positive total weight. -/
theorem applyUpdates_closed_form (s : TransmitterLocation) (us : List UpdateArgs)
    (h0 : 0 < s.total_weight) (h : ∀ u ∈ us, 0 < u.weight) :
    (applyUpdates s us).lat
        = (s.lat * s.total_weight + sumLatW us) / (s.total_weight + sumW us) ∧
      (applyUpdates s us).lon
        = (s.lon * s.total_weight + sumLonW us) / (s.total_weight + sumW us) ∧
      (applyUpdates s us).accuracy
        = (s.accuracy * s.total_weight + sumAccW us) / (s.total_weight + sumW us) ∧
      (applyUpdates s us).total_weight = s.total_weight + sumW us := by
  induction us generalizing s with
  | nil =>
    have hW : s.total_weight ≠ 0 := ne_of_gt h0
    simp [applyUpdates, sumW, sumLatW, sumLonW, sumAccW]
    constructor
    · field_simp
    constructor
    · field_simp
    · field_simp
  | cons u us ih =>
    have hu : 0 < u.weight := h u (by simp)
    have hrest : ∀ v ∈ us, 0 < v.weight := fun v hv => h v (by simp [hv])
    have hW' : 0 < (s.update u.lat u.lon u.accuracy u.weight u.strength).total_weight := by
      simp only [TransmitterLocation.update]
      linarith
    have step : applyUpdates s (u :: us)
        = applyUpdates (s.update u.lat u.lon u.accuracy u.weight u.strength) us := by
      simp [applyUpdates]
    obtain ⟨hlat, hlon, hacc, hw⟩ := ih _ hW' hrest
    rw [step]
    have hWw : s.total_weight + u.weight ≠ 0 := by linarith
    have hupd_lat : (s.update u.lat u.lon u.accuracy u.weight u.strength).lat
        = (s.lat * s.total_weight + u.lat * u.weight) / (s.total_weight + u.weight) := rfl
    have hupd_lon : (s.update u.lat u.lon u.accuracy u.weight u.strength).lon
        = (s.lon * s.total_weight + u.lon * u.weight) / (s.total_weight + u.weight) := rfl
    have hupd_acc : (s.update u.lat u.lon u.accuracy u.weight u.strength).accuracy
        = (s.accuracy * s.total_weight + u.accuracy * u.weight) / (s.total_weight + u.weight) := rfl
    have hupd_w : (s.update u.lat u.lon u.accuracy u.weight u.strength).total_weight
        = s.total_weight + u.weight := rfl
    refine ⟨?_, ?_, ?_, ?_⟩
    · rw [hlat, hupd_lat, hupd_w, sumW_cons]
      have : sumLatW (u :: us) = u.lat * u.weight + sumLatW us := by simp [sumLatW]
      rw [this]
      field_simp
      ring
    · rw [hlon, hupd_lon, hupd_w, sumW_cons]
      have : sumLonW (u :: us) = u.lon * u.weight + sumLonW us := by simp [sumLonW]
      rw [this]
      field_simp
      ring
    · rw [hacc, hupd_acc, hupd_w, sumW_cons]
      have : sumAccW (u :: us) = u.accuracy * u.weight + sumAccW us := by simp [sumAccW]
      rw [this]
      field_simp
      ring
    · rw [hw, hupd_w, sumW_cons]
      ring

/-- C2: starting from `TransmitterLocation::new(mac, lat0, lon0, accuracy0, w0,
strength0)` with `w0 > 0`, applying `TransmitterLocation::update` for each
element of a sequence of updates with positive weights yields `lat`, `lon` and
`accuracy` equal to the closed-form weighted averages over all contributions
(initial point included) and `total_weight` equal to the sum of all weights.
In this exact real-arithmetic model the equality is exact, hence in particular
within `1e-9` relative error. -/
theorem update_fold_is_weighted_average (mac : String)
    (lat0 lon0 accuracy0 w0 strength0 : ℝ) (us : List UpdateArgs)
    (h0 : 0 < w0) (h : ∀ u ∈ us, 0 < u.weight) :
    (applyUpdates (TransmitterLocation.new mac lat0 lon0 accuracy0 w0 strength0) us).lat
        = (lat0 * w0 + sumLatW us) / (w0 + sumW us) ∧
      (applyUpdates (TransmitterLocation.new mac lat0 lon0 accuracy0 w0 strength0) us).lon
        = (lon0 * w0 + sumLonW us) / (w0 + sumW us) ∧
      (applyUpdates (TransmitterLocation.new mac lat0 lon0 accuracy0 w0 strength0) us).accuracy
        = (accuracy0 * w0 + sumAccW us) / (w0 + sumW us) ∧
      (applyUpdates (TransmitterLocation.new mac lat0 lon0 accuracy0 w0 strength0) us).total_weight
        = w0 + sumW us :=
  applyUpdates_closed_form _ us h0 h

/-- Witness for C2, at the inputs of the repository's own unit test
`test_transmitter_location_update`. -/
theorem update_fold_is_weighted_average_witness :
    (applyUpdates (TransmitterLocation.new "11:22:33:44:55:66" 0 0 20 1 (-72))
        [⟨1.8, 0.9, 5, 2, -56⟩]).lat
      = (0 * 1 + sumLatW [⟨1.8, 0.9, 5, 2, -56⟩]) / (1 + sumW [⟨1.8, 0.9, 5, 2, -56⟩]) :=
  (update_fold_is_weighted_average "11:22:33:44:55:66" 0 0 20 1 (-72)
    [⟨1.8, 0.9, 5, 2, -56⟩] (by norm_num)
    (by intro u hu; simp at hu; subst hu; norm_num)).1

/-! ## C3: record invariants -/

/-- The record invariant claimed for `TransmitterLocation`:
bounding box contains the centroid, strengths ordered, positive weight. -/
def TransmitterLocation.Inv (s : TransmitterLocation) : Prop :=
  s.min_lat ≤ s.lat ∧ s.lat ≤ s.max_lat ∧
  s.min_lon ≤ s.lon ∧ s.lon ≤ s.max_lon ∧
  s.min_strength ≤ s.max_strength ∧ 0 < s.total_weight

theorem convex_lower {a x y W w : ℝ} (hW : 0 < W) (hw : 0 < w)
    (hx : a ≤ x) (hy : a ≤ y) : a ≤ (x * W + y * w) / (W + w) := by
  rw [le_div_iff₀ (by linarith)]
  nlinarith

theorem convex_upper {b x y W w : ℝ} (hW : 0 < W) (hw : 0 < w)
    (hx : x ≤ b) (hy : y ≤ b) : (x * W + y * w) / (W + w) ≤ b := by
  rw [div_le_iff₀ (by linarith)]
  nlinarith

/-- `update` preserves the invariant when the added weight is positive. -/
theorem inv_update (s : TransmitterLocation) (lat lon accuracy weight strength : ℝ)
    (hs : s.Inv) (hw : 0 < weight) :
    (s.update lat lon accuracy weight strength).Inv := by
  obtain ⟨h1, h2, h3, h4, h5, h6⟩ := hs
  unfold TransmitterLocation.update TransmitterLocation.Inv
  simp only
  refine ⟨?_, ?_, ?_, ?_, ?_, by linarith⟩
  · split_ifs with hlt
    · exact convex_lower h6 hw (by linarith) le_rfl
    · exact convex_lower h6 hw h1 (by linarith)
  · split_ifs with hlt hgt
    · exact convex_upper h6 hw h2 (by linarith)
    · exact convex_upper h6 hw (by linarith) le_rfl
    · exact convex_upper h6 hw h2 (by linarith)
  · split_ifs with hlt
    · exact convex_lower h6 hw (by linarith) le_rfl
    · exact convex_lower h6 hw h3 (by linarith)
  · split_ifs with hlt hgt
    · exact convex_upper h6 hw h4 (by linarith)
    · exact convex_upper h6 hw (by linarith) le_rfl
    · exact convex_upper h6 hw h4 (by linarith)
  · split_ifs with hlt hgt
    · linarith
    · linarith
    · linarith

/-- The invariant is preserved by any fold of positively weighted updates. -/
theorem inv_applyUpdates (s : TransmitterLocation) (us : List UpdateArgs)
    (hs : s.Inv) (h : ∀ u ∈ us, 0 < u.weight) : (applyUpdates s us).Inv := by
  induction us generalizing s with
  | nil => simpa [applyUpdates] using hs
  | cons u us ih =>
    have step : applyUpdates s (u :: us)
        = applyUpdates (s.update u.lat u.lon u.accuracy u.weight u.strength) us := by
      simp [applyUpdates]
    rw [step]
    exact ih _ (inv_update s u.lat u.lon u.accuracy u.weight u.strength hs
      (h u (by simp))) (fun v hv => h v (by simp [hv]))

/-- C3: every record obtained from `TransmitterLocation::new` followed by any
sequence of `TransmitterLocation::update` calls with positive weights
satisfies `min_lat ≤ lat ≤ max_lat`, `min_lon ≤ lon ≤ max_lon`,
`min_strength ≤ max_strength` and `total_weight > 0`; as the update sequence
is arbitrary this holds after each individual update. -/
theorem new_update_invariant (mac : String)
    (lat0 lon0 accuracy0 w0 strength0 : ℝ) (us : List UpdateArgs)
    (h0 : 0 < w0) (h : ∀ u ∈ us, 0 < u.weight) :
    (applyUpdates (TransmitterLocation.new mac lat0 lon0 accuracy0 w0 strength0) us).Inv := by
  have hbase : (TransmitterLocation.new mac lat0 lon0 accuracy0 w0 strength0).Inv := by
    unfold TransmitterLocation.new TransmitterLocation.Inv
    simp only
    exact ⟨le_rfl, le_rfl, le_rfl, le_rfl, le_rfl, h0⟩
  exact inv_applyUpdates _ us hbase h

/-- Witness for C3: the invariant at the inputs of the repository's own unit
test `test_transmitter_location_update`. -/
theorem new_update_invariant_witness :
    (applyUpdates (TransmitterLocation.new "11:22:33:44:55:66" 0 0 20 1 (-72))
      [⟨1.8, 0.9, 5, 2, -56⟩, ⟨-7.2, -4.5, 5, 2, -76⟩]).Inv :=
  new_update_invariant "11:22:33:44:55:66" 0 0 20 1 (-72)
    [⟨1.8, 0.9, 5, 2, -56⟩, ⟨-7.2, -4.5, 5, 2, -76⟩] (by norm_num)
    (by intro u hu; simp at hu; rcases hu with h | h <;> (subst h; norm_num))

/-! ## C4: the validity predicate -/

/-- The haversine distance from the SW corner of the bounding box to the box
centre, as computed in `TransmitterLocation::valid`. -/
noncomputable def swCenterDistance (s : TransmitterLocation) : ℝ :=
  haversineDistance s.min_lon s.min_lat
    ((s.min_lon + s.max_lon) / 2) ((s.min_lat + s.max_lat) / 2)

/-- C4: `TransmitterLocation::valid` holds iff the haversine distance from
the bounding-box SW corner to the box centre lies between `0` and the
configured `radius_wifi_detection`; consequently a record with
`min_lat = max_lat` and `min_lon = max_lon` is valid (for a nonnegative
configured radius, the distance being zero), and a record whose SW-corner-to-
centre distance exceeds the configured radius is invalid. -/
theorem valid_characterisation (s : TransmitterLocation) (radius : ℝ) :
    (s.valid radius ↔ 0 ≤ swCenterDistance s ∧ swCenterDistance s ≤ radius) ∧
      (s.min_lat = s.max_lat → s.min_lon = s.max_lon → 0 ≤ radius →
        s.valid radius) ∧
      (radius < swCenterDistance s → ¬ s.valid radius) := by
  refine ⟨Iff.rfl, ?_, ?_⟩
  · intro hlat hlon hr
    have hd : swCenterDistance s = 0 := by
      unfold swCenterDistance
      rw [← hlat, ← hlon]
      have h1 : (s.min_lon + s.min_lon) / 2 = s.min_lon := by ring
      have h2 : (s.min_lat + s.min_lat) / 2 = s.min_lat := by ring
      rw [h1, h2, haversineDistance_self]
    unfold TransmitterLocation.valid
    rw [show haversineDistance s.min_lon s.min_lat ((s.min_lon + s.max_lon) / 2)
          ((s.min_lat + s.max_lat) / 2) = swCenterDistance s from rfl, hd]
    exact ⟨le_rfl, hr⟩
  · intro hgt hv
    exact absurd hv.2 (not_le.mpr hgt)

/-- Witness for C4: a degenerate (single-point) bounding box is valid at the
default configured radius of 500 m. -/
theorem valid_characterisation_witness :
    (TransmitterLocation.new "aa:bb:cc:dd:ee:ff" 55.75 37.62 20 1 (-70)).valid 500 :=
  (valid_characterisation
      (TransmitterLocation.new "aa:bb:cc:dd:ee:ff" 55.75 37.62 20 1 (-70)) 500).2.1
    rfl rfl (by norm_num)

/-! ## C1: the cache-path estimator (src/services/locate/geolocate_public.rs)

`service` iterates over the pipeline-fetched `Option<TransmitterLocation>`
list, skips outliers, and for each valid record accumulates lat, lon and
accuracy weighted by `10^(rssi / (10 · SIGNAL_DROP_COEFFICIENT))`, rssi
defaulting to `-90`; with at least one contributor it divides and responds
through `LocationResponsePublic::new`.  (The `is_nan` fallthrough of the
source cannot fire in the exact real-number model.) -/

/-- Rust `f64::round`: round to nearest, ties away from zero. -/
noncomputable def rustRound (x : ℝ) : ℤ := if 0 ≤ x then round x else -round (-x)

/-- Round to six decimal places as in `LocationResponsePublic::new`
(`(x * 1_000_000.0).round() / 1_000_000.0`). -/
noncomputable def round6 (x : ℝ) : ℝ := (rustRound (x * 1000000) : ℝ) / 1000000

/-- `LocationPublic` from geolocate_public.rs. -/
structure LocationPublic where
  latitude : ℝ
  longitude : ℝ

/-- `LocationResponsePublic` from geolocate_public.rs: coordinates rounded
to six decimals, accuracy as an integer (`accuracy.round() as i64`). -/
structure LocationResponsePublic where
  location : LocationPublic
  accuracy : ℤ

/-- `LocationResponsePublic::new`. -/
noncomputable def LocationResponsePublic.new (lat lon accuracy : ℝ) :
    LocationResponsePublic where
  location := ⟨round6 lat, round6 lon⟩
  accuracy := rustRound accuracy

/-- `AccessPoint` from geolocate_public.rs (serde request shape). -/
structure AccessPoint where
  mac : String
  radio_type : Option String
  age : Option ℤ
  channel : Option ℕ
  frequency : Option ℝ
  rssi : Option ℝ
  snr : Option ℝ
  ssid : Option String

/-- `Outlier` from src/services/locate/dbscan/outlier.rs. -/
structure Outlier where
  mac : String
  id : ℕ

/-- `check_outlier`: the record's MAC appears in the outlier list. -/
def check_outlier (outliersOpt : Option (List Outlier))
    (tl : TransmitterLocation) : Bool :=
  match outliersOpt with
  | some outliers => outliers.any (fun otl => otl.mac == tl.mac)
  | none => false

/-- The request's reported signal strength for a MAC:
`data.wifi.iter().find(|wap| *wap.mac == tl.mac).and_then(|wap| wap.rssi)`. -/
def wapSignalStrength (wifi : List AccessPoint) (mac : String) : Option ℝ :=
  (wifi.find? (fun wap => wap.mac == mac)).bind (·.rssi)

/-- The per-contributor weight
`10_f64.powf(rssi.unwrap_or(-90.0) / (10.0 * SIGNAL_DROP_COEFFICIENT))`. -/
noncomputable def wifiWeight (wifi : List AccessPoint) (mac : String) : ℝ :=
  (10 : ℝ) ^ (((wapSignalStrength wifi mac).getD (-90)) /
    (10 * SIGNAL_DROP_COEFFICIENT))

/-- Accumulator of the cache-path loop: `lat_weight`, `lon_weight`,
`r_weight`, `w_weight`, `c`. -/
structure CacheAcc where
  latWeight : ℝ
  lonWeight : ℝ
  rWeight : ℝ
  wWeight : ℝ
  c : ℕ

/-- One iteration of the cache-path loop of `service`. -/
noncomputable def cacheStep (wifi : List AccessPoint)
    (outliersOpt : Option (List Outlier)) (radius : ℝ)
    (acc : CacheAcc) (tlOpt : Option TransmitterLocation) : CacheAcc :=
  match tlOpt with
  | none => acc
  | some tl =>
    if check_outlier outliersOpt tl then acc
    else if tl.valid radius then
      let weight := wifiWeight wifi tl.mac
      ⟨acc.latWeight + tl.lat * weight, acc.lonWeight + tl.lon * weight,
        acc.rWeight + tl.accuracy * weight, acc.wWeight + weight, acc.c + 1⟩
    else acc

/-- The cache-lookup branch of `service`: fold the loop, and with at least
one contributor (`c >= 1`) divide the accumulated sums and answer through
`LocationResponsePublic::new`; otherwise fall through (modelled `none`). -/
noncomputable def cacheEstimate (wifi : List AccessPoint)
    (outliersOpt : Option (List Outlier)) (radius : ℝ)
    (tls : List (Option TransmitterLocation)) : Option LocationResponsePublic :=
  let acc := tls.foldl (cacheStep wifi outliersOpt radius) ⟨0, 0, 0, 0, 0⟩
  if 1 ≤ acc.c then
    some (LocationResponsePublic.new (acc.latWeight / acc.wWeight)
      (acc.lonWeight / acc.wWeight) (acc.rWeight / acc.wWeight))
  else none

/-- The surviving contributors of the cache-path loop: present, not an
outlier, and valid. -/
noncomputable def cacheContributors (outliersOpt : Option (List Outlier))
    (radius : ℝ) (tls : List (Option TransmitterLocation)) :
    List TransmitterLocation :=
  tls.filterMap (fun tlOpt => tlOpt.bind (fun tl =>
    if check_outlier outliersOpt tl then none
    else if tl.valid radius then some tl else none))

theorem cacheStep_fold_spec (wifi : List AccessPoint)
    (outliersOpt : Option (List Outlier)) (radius : ℝ)
    (tls : List (Option TransmitterLocation)) (init : CacheAcc) :
    tls.foldl (cacheStep wifi outliersOpt radius) init
      = ⟨init.latWeight + ((cacheContributors outliersOpt radius tls).map
            (fun tl => tl.lat * wifiWeight wifi tl.mac)).sum,
          init.lonWeight + ((cacheContributors outliersOpt radius tls).map
            (fun tl => tl.lon * wifiWeight wifi tl.mac)).sum,
          init.rWeight + ((cacheContributors outliersOpt radius tls).map
            (fun tl => tl.accuracy * wifiWeight wifi tl.mac)).sum,
          init.wWeight + ((cacheContributors outliersOpt radius tls).map
            (fun tl => wifiWeight wifi tl.mac)).sum,
          init.c + (cacheContributors outliersOpt radius tls).length⟩ := by
  induction tls generalizing init with
  | nil => simp [cacheContributors]
  | cons tlOpt rest ih =>
    match tlOpt with
    | none =>
      rw [List.foldl_cons]
      rw [show cacheStep wifi outliersOpt radius init none = init from rfl, ih]
      simp [cacheContributors]
    | some tl =>
      by_cases ho : check_outlier outliersOpt tl
      · rw [List.foldl_cons]
        rw [show cacheStep wifi outliersOpt radius init (some tl) = init by
          simp [cacheStep, ho]]
        rw [ih]
        simp [cacheContributors, ho]
      · by_cases hv : tl.valid radius
        · rw [List.foldl_cons]
          rw [show cacheStep wifi outliersOpt radius init (some tl)
              = ⟨init.latWeight + tl.lat * wifiWeight wifi tl.mac,
                  init.lonWeight + tl.lon * wifiWeight wifi tl.mac,
                  init.rWeight + tl.accuracy * wifiWeight wifi tl.mac,
                  init.wWeight + wifiWeight wifi tl.mac, init.c + 1⟩ by
            simp [cacheStep, ho, hv]]
          rw [ih]
          have hc : cacheContributors outliersOpt radius (some tl :: rest)
              = tl :: cacheContributors outliersOpt radius rest := by
            simp [cacheContributors, ho, hv]
          rw [hc]
          simp only [List.map_cons, List.sum_cons, List.length_cons]
          have e1 : init.latWeight + tl.lat * wifiWeight wifi tl.mac
              + ((cacheContributors outliersOpt radius rest).map
                  (fun t => t.lat * wifiWeight wifi t.mac)).sum
              = init.latWeight + (tl.lat * wifiWeight wifi tl.mac
                + ((cacheContributors outliersOpt radius rest).map
                    (fun t => t.lat * wifiWeight wifi t.mac)).sum) := by ring
          have e2 : init.lonWeight + tl.lon * wifiWeight wifi tl.mac
              + ((cacheContributors outliersOpt radius rest).map
                  (fun t => t.lon * wifiWeight wifi t.mac)).sum
              = init.lonWeight + (tl.lon * wifiWeight wifi tl.mac
                + ((cacheContributors outliersOpt radius rest).map
                    (fun t => t.lon * wifiWeight wifi t.mac)).sum) := by ring
          have e3 : init.rWeight + tl.accuracy * wifiWeight wifi tl.mac
              + ((cacheContributors outliersOpt radius rest).map
                  (fun t => t.accuracy * wifiWeight wifi t.mac)).sum
              = init.rWeight + (tl.accuracy * wifiWeight wifi tl.mac
                + ((cacheContributors outliersOpt radius rest).map
                    (fun t => t.accuracy * wifiWeight wifi t.mac)).sum) := by ring
          have e4 : init.wWeight + wifiWeight wifi tl.mac
              + ((cacheContributors outliersOpt radius rest).map
                  (fun t => wifiWeight wifi t.mac)).sum
              = init.wWeight + (wifiWeight wifi tl.mac
                + ((cacheContributors outliersOpt radius rest).map
                    (fun t => wifiWeight wifi t.mac)).sum) := by ring
          have e5 : init.c + 1 + (cacheContributors outliersOpt radius rest).length
              = init.c + ((cacheContributors outliersOpt radius rest).length + 1) := by omega
          rw [e1, e2, e3, e4, e5]
        · rw [List.foldl_cons]
          rw [show cacheStep wifi outliersOpt radius init (some tl) = init by
            simp [cacheStep, ho, hv]]
          rw [ih]
          simp [cacheContributors, ho, hv]

theorem sum_pos_of_forall_pos {α : Type} (l : List α) (f : α → ℝ)
    (hne : l ≠ []) (hpos : ∀ x ∈ l, 0 < f x) : 0 < (l.map f).sum := by
  induction l with
  | nil => exact absurd rfl hne
  | cons a t ih =>
    have hnn : 0 ≤ (t.map f).sum := by
      cases t with
      | nil => simp
      | cons b u =>
        exact le_of_lt (ih (by simp) (fun x hx => hpos x (by simp [hx])))
    simp only [List.map_cons, List.sum_cons]
    have := hpos a (by simp)
    linarith

/-- C1: whenever the cache lookup yields at least one surviving
(non-outlier) valid `TransmitterLocation`, the total weight is positive and
the estimator answers with the weighted average of the contributors' lat,
lon and accuracy under weight `10^(rssi / (10 · 3.0))` (rssi defaulting to
`-90` when the query reports none for that MAC), the coordinates rounded to
six decimal places and the accuracy rounded to the nearest integer metre by
`LocationResponsePublic::new`. -/
theorem cache_estimate_weighted_average (wifi : List AccessPoint)
    (outliersOpt : Option (List Outlier)) (radius : ℝ)
    (tls : List (Option TransmitterLocation))
    (h : cacheContributors outliersOpt radius tls ≠ []) :
    0 < ((cacheContributors outliersOpt radius tls).map
        (fun tl => wifiWeight wifi tl.mac)).sum ∧
      cacheEstimate wifi outliersOpt radius tls
        = some (LocationResponsePublic.new
            (((cacheContributors outliersOpt radius tls).map
                (fun tl => tl.lat * wifiWeight wifi tl.mac)).sum /
              ((cacheContributors outliersOpt radius tls).map
                (fun tl => wifiWeight wifi tl.mac)).sum)
            (((cacheContributors outliersOpt radius tls).map
                (fun tl => tl.lon * wifiWeight wifi tl.mac)).sum /
              ((cacheContributors outliersOpt radius tls).map
                (fun tl => wifiWeight wifi tl.mac)).sum)
            (((cacheContributors outliersOpt radius tls).map
                (fun tl => tl.accuracy * wifiWeight wifi tl.mac)).sum /
              ((cacheContributors outliersOpt radius tls).map
                (fun tl => wifiWeight wifi tl.mac)).sum)) := by
  have hwpos : ∀ tl ∈ cacheContributors outliersOpt radius tls,
      0 < wifiWeight wifi tl.mac := by
    intro tl _
    exact Real.rpow_pos_of_pos (by norm_num) _
  refine ⟨sum_pos_of_forall_pos _ _ h hwpos, ?_⟩
  unfold cacheEstimate
  rw [cacheStep_fold_spec]
  have hlen : 1 ≤ (cacheContributors outliersOpt radius tls).length := by
    cases hc : cacheContributors outliersOpt radius tls with
    | nil => exact absurd hc h
    | cons a t => simp
  simp only [zero_add]
  rw [if_pos hlen]

/-- Witness for C1: a single cached record with a degenerate bounding box,
no outliers, default radius 500, empty Wi-Fi list in the query (so the rssi
default `-90` applies). -/
theorem cache_estimate_weighted_average_witness :
    0 < ((cacheContributors none 500
          [some (TransmitterLocation.new "aa:bb:cc:dd:ee:ff" 55.75 37.62 20 1 (-70))]).map
        (fun tl => wifiWeight [] tl.mac)).sum ∧
      cacheEstimate [] none 500
          [some (TransmitterLocation.new "aa:bb:cc:dd:ee:ff" 55.75 37.62 20 1 (-70))]
        = some (LocationResponsePublic.new
            (((cacheContributors none 500
                  [some (TransmitterLocation.new "aa:bb:cc:dd:ee:ff" 55.75 37.62 20 1 (-70))]).map
                (fun tl => tl.lat * wifiWeight [] tl.mac)).sum /
              ((cacheContributors none 500
                  [some (TransmitterLocation.new "aa:bb:cc:dd:ee:ff" 55.75 37.62 20 1 (-70))]).map
                (fun tl => wifiWeight [] tl.mac)).sum)
            (((cacheContributors none 500
                  [some (TransmitterLocation.new "aa:bb:cc:dd:ee:ff" 55.75 37.62 20 1 (-70))]).map
                (fun tl => tl.lon * wifiWeight [] tl.mac)).sum /
              ((cacheContributors none 500
                  [some (TransmitterLocation.new "aa:bb:cc:dd:ee:ff" 55.75 37.62 20 1 (-70))]).map
                (fun tl => wifiWeight [] tl.mac)).sum)
            (((cacheContributors none 500
                  [some (TransmitterLocation.new "aa:bb:cc:dd:ee:ff" 55.75 37.62 20 1 (-70))]).map
                (fun tl => tl.accuracy * wifiWeight [] tl.mac)).sum /
              ((cacheContributors none 500
                  [some (TransmitterLocation.new "aa:bb:cc:dd:ee:ff" 55.75 37.62 20 1 (-70))]).map
                (fun tl => wifiWeight [] tl.mac)).sum)) := by
  have hvalid : (TransmitterLocation.new "aa:bb:cc:dd:ee:ff" 55.75 37.62 20 1 (-70)).valid 500 := by
    unfold TransmitterLocation.valid TransmitterLocation.new
    rw [show ((37.62:ℝ) + 37.62) / 2 = 37.62 by norm_num,
      show ((55.75:ℝ) + 55.75) / 2 = 55.75 by norm_num, haversineDistance_self]
    norm_num
  exact cache_estimate_weighted_average [] none 500
    [some (TransmitterLocation.new "aa:bb:cc:dd:ee:ff" 55.75 37.62 20 1 (-70))]
    (by simp [cacheContributors, check_outlier, hvalid])

/-! ## C5: the LBS-fallback estimate (src/lbs/yandex.rs,
`estimate_location_by_yandex_responses`) -/

/-- `YandexPoint` from src/lbs/yandex.rs. -/
structure YandexPoint where
  lat : ℝ
  lon : ℝ

/-- `YandexLocation` from src/lbs/yandex.rs. -/
structure YandexLocation where
  point : YandexPoint
  accuracy : ℝ

/-- `YandexLbsResponse` from src/lbs/yandex.rs. -/
structure YandexLbsResponse where
  location : YandexLocation

/-- `std::f64::MAX`, the initial value of the `accuracy` accumulator. -/
noncomputable def F64_MAX : ℝ := 1.7976931348623157e308

/-- Accumulator of the loop in `estimate_location_by_yandex_responses`. -/
structure YandexEstAcc where
  latWeight : ℝ
  lonWeight : ℝ
  wWeight : ℝ
  accuracy : ℝ

/-- One iteration of the loop in `estimate_location_by_yandex_responses`:
entries whose response is `None` are skipped; a surviving response
contributes with weight `1.0 / accuracy`, and the running `accuracy` keeps
the minimum survivor accuracy. -/
noncomputable def yandexEstStep (acc : YandexEstAcc)
    (entry : String × Option YandexLbsResponse) : YandexEstAcc :=
  match entry.2 with
  | none => acc
  | some ylr =>
    { latWeight := acc.latWeight +
        ylr.location.point.lat * (1 / ylr.location.accuracy)
      lonWeight := acc.lonWeight +
        ylr.location.point.lon * (1 / ylr.location.accuracy)
      wWeight := acc.wWeight + 1 / ylr.location.accuracy
      accuracy := if acc.accuracy > ylr.location.accuracy
        then ylr.location.accuracy else acc.accuracy }

/-- `estimate_location_by_yandex_responses`: fold the surviving responses
and answer only when `w_weight > 0.0 && lat_weight > 0.0 &&
lon_weight > 0.0`. -/
noncomputable def estimate_location_by_yandex_responses
    (responses : List (String × Option YandexLbsResponse)) :
    Option YandexLbsResponse :=
  let acc := responses.foldl yandexEstStep ⟨0, 0, 0, F64_MAX⟩
  if 0 < acc.wWeight ∧ 0 < acc.latWeight ∧ 0 < acc.lonWeight then
    some ⟨⟨⟨acc.latWeight / acc.wWeight, acc.lonWeight / acc.wWeight⟩,
      acc.accuracy⟩⟩
  else none

/-- The surviving responses of an LBS lookup map (entries with `Some`). -/
def yandexSurvivors (responses : List (String × Option YandexLbsResponse)) :
    List YandexLbsResponse :=
  responses.filterMap (·.2)

/-- Minimum accuracy over the survivors, as folded by the source loop from
`std::f64::MAX`. -/
noncomputable def yandexMinAccuracy
    (responses : List (String × Option YandexLbsResponse)) : ℝ :=
  (yandexSurvivors responses).foldl
    (fun a y => if a > y.location.accuracy then y.location.accuracy else a)
    F64_MAX

theorem yandexEstStep_fold_spec
    (responses : List (String × Option YandexLbsResponse))
    (init : YandexEstAcc) :
    responses.foldl yandexEstStep init
      = ⟨init.latWeight + ((yandexSurvivors responses).map
            (fun y => y.location.point.lat * (1 / y.location.accuracy))).sum,
          init.lonWeight + ((yandexSurvivors responses).map
            (fun y => y.location.point.lon * (1 / y.location.accuracy))).sum,
          init.wWeight + ((yandexSurvivors responses).map
            (fun y => 1 / y.location.accuracy)).sum,
          (yandexSurvivors responses).foldl
            (fun a y => if a > y.location.accuracy then y.location.accuracy
              else a) init.accuracy⟩ := by
  induction responses generalizing init with
  | nil => simp [yandexSurvivors]
  | cons entry rest ih =>
    match hent : entry.2 with
    | none =>
      have hs : yandexSurvivors (entry :: rest) = yandexSurvivors rest := by
        simp [yandexSurvivors, hent]
      rw [List.foldl_cons,
        show yandexEstStep init entry = init by simp [yandexEstStep, hent],
        ih, hs]
    | some ylr =>
      have hs : yandexSurvivors (entry :: rest) = ylr :: yandexSurvivors rest := by
        simp [yandexSurvivors, hent]
      rw [List.foldl_cons,
        show yandexEstStep init entry
            = ⟨init.latWeight + ylr.location.point.lat * (1 / ylr.location.accuracy),
                init.lonWeight + ylr.location.point.lon * (1 / ylr.location.accuracy),
                init.wWeight + 1 / ylr.location.accuracy,
                if init.accuracy > ylr.location.accuracy then ylr.location.accuracy
                  else init.accuracy⟩ by
          simp [yandexEstStep, hent],
        ih, hs]
      simp only [List.map_cons, List.sum_cons, List.foldl_cons]
      have e1 : init.latWeight + ylr.location.point.lat * (1 / ylr.location.accuracy)
          + ((yandexSurvivors rest).map
              (fun y => y.location.point.lat * (1 / y.location.accuracy))).sum
          = init.latWeight + (ylr.location.point.lat * (1 / ylr.location.accuracy)
            + ((yandexSurvivors rest).map
                (fun y => y.location.point.lat * (1 / y.location.accuracy))).sum) := by
        ring
      have e2 : init.lonWeight + ylr.location.point.lon * (1 / ylr.location.accuracy)
          + ((yandexSurvivors rest).map
              (fun y => y.location.point.lon * (1 / y.location.accuracy))).sum
          = init.lonWeight + (ylr.location.point.lon * (1 / ylr.location.accuracy)
            + ((yandexSurvivors rest).map
                (fun y => y.location.point.lon * (1 / y.location.accuracy))).sum) := by
        ring
      have e3 : init.wWeight + 1 / ylr.location.accuracy
          + ((yandexSurvivors rest).map (fun y => 1 / y.location.accuracy)).sum
          = init.wWeight + (1 / ylr.location.accuracy
            + ((yandexSurvivors rest).map (fun y => 1 / y.location.accuracy)).sum) := by
        ring
      rw [e1, e2, e3]

/-- C5 counterexample: a non-empty LBS response map with one surviving
point — at latitude `-10` (southern hemisphere) — on which
`estimate_location_by_yandex_responses` returns `None`, because the source
additionally requires `lat_weight > 0.0 && lon_weight > 0.0`; the claim
says the result must be `Some` for every non-empty surviving map. -/
theorem estimate_yandex_southern_counterexample :
    (∃ e ∈ [("aa:bb:cc:dd:ee:ff", some (⟨⟨⟨-10, 37⟩, 1⟩⟩ : YandexLbsResponse))],
        e.2.isSome) ∧
      estimate_location_by_yandex_responses
        [("aa:bb:cc:dd:ee:ff", some ⟨⟨⟨-10, 37⟩, 1⟩⟩)] = none := by
  constructor
  · exact ⟨("aa:bb:cc:dd:ee:ff", some ⟨⟨⟨-10, 37⟩, 1⟩⟩), by simp, by simp⟩
  · unfold estimate_location_by_yandex_responses
    rw [yandexEstStep_fold_spec]
    rw [if_neg]
    simp only [yandexSurvivors, List.filterMap_cons]
    norm_num

/-- C5 amended: for every non-empty map of surviving LBS responses all of
whose surviving points have positive latitude, longitude and accuracy, the
returned location is `Some` and equals the weighted average of the
surviving points' lat and lon with per-point weight `1/accuracy` (the
response's accuracy being the minimum survivor accuracy).  The positivity
conditions are what the source's `w_weight > 0 && lat_weight > 0 &&
lon_weight > 0` guard actually demands. -/
theorem estimate_yandex_weighted_average
    (responses : List (String × Option YandexLbsResponse))
    (hne : yandexSurvivors responses ≠ [])
    (hpos : ∀ y ∈ yandexSurvivors responses,
      0 < y.location.point.lat ∧ 0 < y.location.point.lon ∧
        0 < y.location.accuracy) :
    estimate_location_by_yandex_responses responses
      = some ⟨⟨⟨((yandexSurvivors responses).map
              (fun y => y.location.point.lat * (1 / y.location.accuracy))).sum /
            ((yandexSurvivors responses).map
              (fun y => 1 / y.location.accuracy)).sum,
          ((yandexSurvivors responses).map
              (fun y => y.location.point.lon * (1 / y.location.accuracy))).sum /
            ((yandexSurvivors responses).map
              (fun y => 1 / y.location.accuracy)).sum⟩,
        yandexMinAccuracy responses⟩⟩ := by
  unfold estimate_location_by_yandex_responses
  rw [yandexEstStep_fold_spec]
  simp only [zero_add]
  rw [if_pos]
  · rfl
  refine ⟨?_, ?_, ?_⟩
  · exact sum_pos_of_forall_pos _ _ hne
      (fun y hy => by
        obtain ⟨h1, h2, h3⟩ := hpos y hy
        positivity)
  · exact sum_pos_of_forall_pos _ _ hne
      (fun y hy => by
        obtain ⟨h1, h2, h3⟩ := hpos y hy
        positivity)
  · exact sum_pos_of_forall_pos _ _ hne
      (fun y hy => by
        obtain ⟨h1, h2, h3⟩ := hpos y hy
        positivity)

/-- Witness for the amended C5, at two concrete surviving points. -/
theorem estimate_yandex_weighted_average_witness :
    estimate_location_by_yandex_responses
        [("aa:aa:aa:aa:aa:aa", some ⟨⟨⟨55.75, 37.62⟩, 20⟩⟩),
          ("bb:bb:bb:bb:bb:bb", some ⟨⟨⟨55.76, 37.63⟩, 40⟩⟩)]
      = some ⟨⟨⟨((yandexSurvivors
              [("aa:aa:aa:aa:aa:aa", some ⟨⟨⟨55.75, 37.62⟩, 20⟩⟩),
                ("bb:bb:bb:bb:bb:bb", some ⟨⟨⟨55.76, 37.63⟩, 40⟩⟩)]).map
              (fun y => y.location.point.lat * (1 / y.location.accuracy))).sum /
            ((yandexSurvivors
              [("aa:aa:aa:aa:aa:aa", some ⟨⟨⟨55.75, 37.62⟩, 20⟩⟩),
                ("bb:bb:bb:bb:bb:bb", some ⟨⟨⟨55.76, 37.63⟩, 40⟩⟩)]).map
              (fun y => 1 / y.location.accuracy)).sum,
          ((yandexSurvivors
              [("aa:aa:aa:aa:aa:aa", some ⟨⟨⟨55.75, 37.62⟩, 20⟩⟩),
                ("bb:bb:bb:bb:bb:bb", some ⟨⟨⟨55.76, 37.63⟩, 40⟩⟩)]).map
              (fun y => y.location.point.lon * (1 / y.location.accuracy))).sum /
            ((yandexSurvivors
              [("aa:aa:aa:aa:aa:aa", some ⟨⟨⟨55.75, 37.62⟩, 20⟩⟩),
                ("bb:bb:bb:bb:bb:bb", some ⟨⟨⟨55.76, 37.63⟩, 40⟩⟩)]).map
              (fun y => 1 / y.location.accuracy)).sum⟩,
        yandexMinAccuracy
          [("aa:aa:aa:aa:aa:aa", some ⟨⟨⟨55.75, 37.62⟩, 20⟩⟩),
            ("bb:bb:bb:bb:bb:bb", some ⟨⟨⟨55.76, 37.63⟩, 40⟩⟩)]⟩⟩ :=
  estimate_yandex_weighted_average
    [("aa:aa:aa:aa:aa:aa", some ⟨⟨⟨55.75, 37.62⟩, 20⟩⟩),
      ("bb:bb:bb:bb:bb:bb", some ⟨⟨⟨55.76, 37.63⟩, 40⟩⟩)]
    (by simp [yandexSurvivors])
    (by
      intro y hy
      simp [yandexSurvivors] at hy
      rcases hy with h | h <;> (subst h; norm_num))

/-! ## C9: MAC normalization
(src/services/helper/custom_deserialize.rs, `mac_address` / `mac_formatted`) -/

/-- The chunking loop of `mac_formatted` with `chunk_size = 2`: while more
than two characters remain, split off the first two; the final remainder is
pushed whole. -/
def macFormattedChunks : List Char → List (List Char)
  | a :: b :: c :: rest => [a, b] :: macFormattedChunks (c :: rest)
  | cs => [cs]

/-- `mac_formatted(mac, 2)`: only 12-character inputs are reformatted; the
two-character sections are joined with `":"`. -/
def mac_formatted (mac : String) : String :=
  if mac.length ≠ 12 then mac
  else String.intercalate ":" ((macFormattedChunks mac.data).map String.mk)

/-- `mac_address` (the serde deserializer body): inputs containing `":"`
are passed through, others go through `mac_formatted`.  Rust's
`mac.contains(":")` tests occurrence of the one-character pattern, i.e.
membership of `':'` among the characters. -/
def mac_address (mac : String) : String :=
  if ':' ∉ mac.data then mac_formatted mac else mac

/-- Modelled from the spec: the "colon-delimited lowercase form" of a MAC —
its two-character groups, all hex digits lowercased, joined by `":"`.
For comparison against `mac_address`. -/
def specLowercaseColonForm (mac : String) : String :=
  String.intercalate ":"
    ((macFormattedChunks (mac.data.map Char.toLower)).map String.mk)

/-- The ten decimal digit characters. -/
def decDigitChars : List Char :=
  (List.range 10).map (fun n => Char.ofNat ('0'.toNat + n))

/-- The sixteen lowercase hexadecimal digit characters. -/
def lowercaseHexDigits : List Char :=
  decDigitChars ++ (List.range 6).map (fun n => Char.ofNat ('a'.toNat + n))

/-- The hexadecimal digit characters, both cases. -/
def hexDigits : List Char :=
  lowercaseHexDigits ++ (List.range 6).map (fun n => Char.ofNat ('A'.toNat + n))

/-- C9 counterexample: `"AABBCCDDEEFF"` is a 12-character hexadecimal MAC
string without separators, yet the deserializer returns
`"AA:BB:CC:DD:EE:FF"`, not the colon-delimited lowercase form
`"aa:bb:cc:dd:ee:ff"`: `mac_formatted` inserts colons but never lowercases. -/
theorem mac_address_no_lowercasing_counterexample :
    ("AABBCCDDEEFF" : String).length = 12 ∧
      ':' ∉ ("AABBCCDDEEFF" : String).data ∧
      (∀ c ∈ ("AABBCCDDEEFF" : String).data, c ∈ hexDigits) ∧
      mac_address "AABBCCDDEEFF" = "AA:BB:CC:DD:EE:FF" ∧
      mac_address "AABBCCDDEEFF" ≠ specLowercaseColonForm "AABBCCDDEEFF" := by
  refine ⟨by decide, by decide, by decide, by decide, by decide⟩

/-- C9 amended: for every 12-character hexadecimal MAC string without
separators (uppercase, lowercase or mixed hex digits), `mac_address`
produces the colon-delimited form of the input with its character case
preserved; when all hex digits of the input are already lowercase this
equals the colon-delimited lowercase form. -/
theorem mac_address_case_preserving (mac : String)
    (hlen : mac.length = 12) (hsep : ':' ∉ mac.data)
    (_hhex : ∀ c ∈ mac.data, c ∈ hexDigits) :
    mac_address mac
        = String.intercalate ":" ((macFormattedChunks mac.data).map String.mk) ∧
      ((∀ c ∈ mac.data, c ∈ lowercaseHexDigits) →
        mac_address mac = specLowercaseColonForm mac) := by
  have hform : mac_address mac
      = String.intercalate ":" ((macFormattedChunks mac.data).map String.mk) := by
    unfold mac_address mac_formatted
    rw [if_pos hsep]
    simp [hlen]
  refine ⟨hform, fun hlowerhex => ?_⟩
  have hlower : mac.data.map Char.toLower = mac.data := by
    apply List.map_congr_left ?_ |>.trans (List.map_id _)
    intro c hc
    have hmem := hlowerhex c hc
    have : ∀ c ∈ lowercaseHexDigits, Char.toLower c = c := by decide
    exact this c hmem
  rw [hform]
  unfold specLowercaseColonForm
  rw [hlower]

/-- Witness for the amended C9: case preservation at a mixed-case input,
and agreement with the lowercase colon form at the input of the source
comment (`"68725170356b"`). -/
theorem mac_address_case_preserving_witness :
    mac_address "AaBbCcDdEeFf"
        = String.intercalate ":"
            ((macFormattedChunks ("AaBbCcDdEeFf" : String).data).map String.mk) ∧
      mac_address "68725170356b" = specLowercaseColonForm "68725170356b" :=
  ⟨(mac_address_case_preserving "AaBbCcDdEeFf"
      (by decide) (by decide) (by decide)).1,
    (mac_address_case_preserving "68725170356b"
      (by decide) (by decide) (by decide)).2 (by decide)⟩

/-! ## C7: per-AP LBS request status policy
(src/lbs/yandex.rs, `yandex_lbs_request_by_individual_wifi`, the retry loop) -/

/-- Outcome of deserialising a 200 body in the retry loop. -/
inductive YandexBody
  | jsonError
  | emptyObject
  | parsed (r : YandexLbsResponse)
  | unparsed

/-- One scripted network interaction: a transport failure or an HTTP
response with a status and (for 200) a body. -/
inductive YandexHttp
  | transportError
  | response (status : ℕ) (body : YandexBody)

/-- What the retry loop does for one access point. -/
inductive LbsOutcome
  /-- `return Err(ApiError::LbsRequestError())`. -/
  | lbsRequestError
  /-- `return Err(ApiError::LbsError(status))`. -/
  | lbsError (status : ℕ)
  /-- normal `break`: `inserted` is the value recorded in `lbs_responses`
  for the MAC (`none` when nothing is inserted). -/
  | completed (inserted : Option (Option YandexLbsResponse))
  /-- the `while` condition became false (unreachable from `attempt = 0`). -/
  | loopExited
  /-- model artifact: the interaction script supplied no further response. -/
  | scriptEnded

/-- Result of the retry loop together with observable effects: the number
of HTTP requests sent, the number of 1-second sleeps performed, and
whether an `InvalidApiKey` message quarantining the key was sent. -/
structure LbsLoopResult where
  outcome : LbsOutcome
  requests : ℕ
  sleeps : ℕ
  invalidatedKey : Bool

/-- The retry loop of `yandex_lbs_request_by_individual_wifi`
(`count_attempts = 5`; `attempt` is incremented at the top of each
iteration): a transport error returns `LbsRequestError`; 429/500/504 sleeps
1 s and retries until `attempt == count_attempts`, then returns
`LbsError(status)`; 403 first sends `InvalidApiKey` (quarantining the key)
and returns `LbsError(403)`; any other non-200 returns `LbsError(status)`;
a 200 body is recorded and the loop breaks. -/
def yandexLbsLoop (countAttempts : ℕ) :
    ℕ → ℕ → ℕ → List YandexHttp → LbsLoopResult
  | attempt, requests, sleeps, script =>
    if attempt > countAttempts then ⟨.loopExited, requests, sleeps, false⟩
    else
      match script with
      | [] => ⟨.scriptEnded, requests, sleeps, false⟩
      | r :: rest =>
        let attempt' := attempt + 1
        match r with
        | .transportError => ⟨.lbsRequestError, requests + 1, sleeps, false⟩
        | .response status body =>
          if status ≠ 200 then
            if status = 429 ∨ status = 500 ∨ status = 504 then
              if attempt' = countAttempts then
                ⟨.lbsError status, requests + 1, sleeps, false⟩
              else
                yandexLbsLoop countAttempts attempt' (requests + 1) (sleeps + 1) rest
            else if status = 403 then
              ⟨.lbsError status, requests + 1, sleeps, true⟩
            else ⟨.lbsError status, requests + 1, sleeps, false⟩
          else
            match body with
            | .jsonError => ⟨.completed (some none), requests + 1, sleeps, false⟩
            | .emptyObject => ⟨.completed (some none), requests + 1, sleeps, false⟩
            | .parsed ylr => ⟨.completed (some (some ylr)), requests + 1, sleeps, false⟩
            | .unparsed => ⟨.completed none, requests + 1, sleeps, false⟩

/-- C7: for a per-AP LBS request, (i) a 403 response quarantines the key
(`InvalidApiKey` is sent) and surfaces `LbsError(403)` without any further
request with that key; (ii) a persistent 429/500/504 makes the loop send
the same request `count_attempts = 5` times in total with a 1-second sleep
between successive attempts (4 sleeps) and then surface `LbsError(status)`;
(iii) a transport error immediately surfaces `LbsRequestError`. -/
theorem yandex_lbs_status_policy (s : ℕ) (b : YandexBody)
    (rest : List YandexHttp) (hs : s = 429 ∨ s = 500 ∨ s = 504) :
    yandexLbsLoop 5 0 0 0 (.response 403 b :: rest)
        = ⟨.lbsError 403, 1, 0, true⟩ ∧
      yandexLbsLoop 5 0 0 0 (List.replicate 5 (.response s b) ++ rest)
        = ⟨.lbsError s, 5, 4, false⟩ ∧
      yandexLbsLoop 5 0 0 0 (.transportError :: rest)
        = ⟨.lbsRequestError, 1, 0, false⟩ := by
  refine ⟨?_, ?_, ?_⟩
  · rfl
  · rcases hs with rfl | rfl | rfl <;> rfl
  · rfl

/-- Witness for C7 at status 429 with an empty remainder script. -/
theorem yandex_lbs_status_policy_witness :
    yandexLbsLoop 5 0 0 0 [.response 403 .emptyObject]
        = ⟨.lbsError 403, 1, 0, true⟩ ∧
      yandexLbsLoop 5 0 0 0 (List.replicate 5 (.response 429 .emptyObject) ++ [])
        = ⟨.lbsError 429, 5, 4, false⟩ ∧
      yandexLbsLoop 5 0 0 0 [.transportError]
        = ⟨.lbsRequestError, 1, 0, false⟩ :=
  yandex_lbs_status_policy 429 .emptyObject [] (Or.inl rfl)

/-! ## C8: LBS key scheduler round-robin (src/tasks/yandex.rs,
`yandex_api_task`, the `GetApiKey` arm) -/

/-- The index arithmetic of the `GetApiKey` arm: with `count_keys = 0` the
task replies `None` and leaves the state unchanged; otherwise if
`index_key > count_keys - 1` it resets `index_key` to 1 and hands out
index 0, else it hands out `index_key` and increments it. -/
def getApiKeyIndex (countKeys : ℕ) (indexKey : ℕ) : Option ℕ × ℕ :=
  if countKeys = 0 then (none, indexKey)
  else if indexKey > countKeys - 1 then (some 0, 1)
  else (some indexKey, indexKey + 1)

/-- The `GetApiKey` arm over the active key map (modelled as the list of
keys at indices `0 .. N-1`, the no-quarantine configuration): reply with
the key at the computed index; the source's fallback for a missing index
takes one arbitrary map entry, modelled as the first. -/
def getApiKey (keys : List String) (indexKey : ℕ) :
    Option (String × ℕ) × ℕ :=
  match getApiKeyIndex keys.length indexKey with
  | (none, s) => (none, s)
  | (some index, s) =>
    match keys[index]? with
    | some k => (some (k, index), s)
    | none => (keys.head?.map (fun k => (k, 0)), s)

/-- The scheduler state (`index_key`) after `j` successive `GetApiKey`
requests starting from state `s0`. -/
def lksStateAfter (keys : List String) (s0 : ℕ) : ℕ → ℕ
  | 0 => s0
  | j + 1 => (getApiKey keys (lksStateAfter keys s0 j)).2

/-- The reply to the `(j+1)`-st successive `GetApiKey` request. -/
def lksReturned (keys : List String) (s0 j : ℕ) : Option (String × ℕ) :=
  (getApiKey keys (lksStateAfter keys s0 j)).1

theorem getApiKey_of_lt (keys : List String) (s : ℕ) (hs : s < keys.length) :
    getApiKey keys s = (some (keys.get ⟨s, hs⟩, s), s + 1) := by
  unfold getApiKey getApiKeyIndex
  rw [if_neg (by omega), if_neg (by omega)]
  simp [List.getElem?_eq_getElem hs]

theorem getApiKey_of_ge (keys : List String) (s : ℕ) (hN : 0 < keys.length)
    (hs : keys.length ≤ s) :
    getApiKey keys s = (some (keys.get ⟨0, hN⟩, 0), 1) := by
  unfold getApiKey getApiKeyIndex
  rw [if_neg (by omega), if_pos (by omega)]
  simp [List.getElem?_eq_getElem hN]

/-- C8: with the active set empty every `GetApiKey` reply is `None`; with
`N > 0` active keys and no quarantine or reactivation events, every
`GetApiKey` reply carries the key at some index `i < N` and the next reply
carries the key at index `(i + 1) % N` — successive requests walk the
indices round-robin. -/
theorem lks_round_robin (keys : List String) (s0 : ℕ) :
    (keys = [] → ∀ j, lksReturned keys s0 j = none) ∧
      (keys ≠ [] → ∀ j, ∃ i, ∃ hi : i < keys.length,
        ∃ hi' : (i + 1) % keys.length < keys.length,
        lksReturned keys s0 j = some (keys.get ⟨i, hi⟩, i) ∧
          lksReturned keys s0 (j + 1)
            = some (keys.get ⟨(i + 1) % keys.length, hi'⟩, (i + 1) % keys.length)) := by
  constructor
  · intro hkeys j
    subst hkeys
    unfold lksReturned getApiKey getApiKeyIndex
    simp
  · intro hne j
    have hN : 0 < keys.length := List.length_pos.mpr hne
    set s := lksStateAfter keys s0 j with hsdef
    have hnext : lksStateAfter keys s0 (j + 1) = (getApiKey keys s).2 := rfl
    by_cases hs : s < keys.length
    · refine ⟨s, hs, Nat.mod_lt _ hN, ?_, ?_⟩
      · unfold lksReturned
        rw [← hsdef, getApiKey_of_lt keys s hs]
      · unfold lksReturned
        rw [hnext, getApiKey_of_lt keys s hs]
        by_cases hs1 : s + 1 < keys.length
        · rw [getApiKey_of_lt keys (s + 1) hs1]
          have : (s + 1) % keys.length = s + 1 := Nat.mod_eq_of_lt hs1
          simp only [this]
        · have heq : s + 1 = keys.length := by omega
          rw [getApiKey_of_ge keys (s + 1) hN (by omega)]
          have : (s + 1) % keys.length = 0 := by
            rw [heq, Nat.mod_self]
          simp only [this]
    · refine ⟨0, hN, Nat.mod_lt _ hN, ?_, ?_⟩
      · unfold lksReturned
        rw [← hsdef, getApiKey_of_ge keys s hN (by omega)]
      · unfold lksReturned
        rw [hnext, getApiKey_of_ge keys s hN (by omega)]
        by_cases h1 : 1 < keys.length
        · rw [getApiKey_of_lt keys 1 h1]
          have : (0 + 1) % keys.length = 1 := Nat.mod_eq_of_lt (by omega)
          simp only [this]
        · have hlen1 : keys.length = 1 := by omega
          rw [getApiKey_of_ge keys 1 hN (by omega)]
          have : (0 + 1) % keys.length = 0 := by
            rw [hlen1]
          simp only [this]

/-- Witness for C8 with two keys starting from the fresh state. -/
theorem lks_round_robin_witness :
    (([] : List String) = [] → ∀ j, lksReturned [] 0 j = none) ∧
      ∃ i, ∃ hi : i < (["k0", "k1"] : List String).length,
        ∃ hi' : (i + 1) % (["k0", "k1"] : List String).length
          < (["k0", "k1"] : List String).length,
        lksReturned ["k0", "k1"] 0 0
            = some ((["k0", "k1"] : List String).get ⟨i, hi⟩, i) ∧
          lksReturned ["k0", "k1"] 0 1
            = some ((["k0", "k1"] : List String).get
                ⟨(i + 1) % (["k0", "k1"] : List String).length, hi'⟩,
              (i + 1) % (["k0", "k1"] : List String).length) :=
  ⟨(lks_round_robin [] 0).1,
    (lks_round_robin ["k0", "k1"] 0).2 (by decide) 0⟩

/-! ## C6: the LBS-outlier filter and the device track
(src/lbs/yandex.rs, `detect_yandex_outliers` and `check_point_by_track`) -/

/-- `Gnss` from src/db/t38/track.rs. -/
structure Gnss where
  lon : ℝ
  lat : ℝ

/-- `Wifi` from src/db/t38/track.rs (one tracked AP: mac, rssi, gnss). -/
structure TrackWifi where
  m : String
  r : ℝ
  g : Gnss

/-- `WifiTrackRecord` from src/db/t38/track.rs. -/
structure WifiTrackRecord where
  ts : ℤ
  gnss : Option Gnss
  wifi : List TrackWifi

/-- `WifiTrack` from src/db/t38/track.rs. -/
structure WifiTrack where
  device_id : String
  records : List WifiTrackRecord

/-- First-match lookup in an association list (models `HashMap::get`). -/
def alookup {α : Type} (m : List (String × α)) (k : String) : Option α :=
  (m.find? (fun e => e.1 == k)).map (·.2)

/-- `OutliersYandex` from src/lbs/yandex.rs. -/
structure OutliersYandex where
  outliers : List (String × YandexLbsResponse)

/-- `create_cell_points` from src/services/locate/dbscan/outlier.rs: every
cell entry carrying a response becomes a `Point` with id 0. -/
noncomputable def create_cell_points
    (cell : List (String × Option YandexLbsResponse)) : List Point :=
  cell.filterMap (fun e => e.2.map (fun ylr =>
    { id := 0, lon := ylr.location.point.lon, lat := ylr.location.point.lat }))

/-- Modelled from the spec: the `clusters` crate's DBSCAN (§4.4) is a
dependency whose source is not in the repository.  With `min_pts = 0` (the
only configuration `detect_yandex_outliers` uses) every point with a
neighbour within `eps` joins (or seeds) a cluster and clusters are the
eps-connectivity components; a point with no neighbour within `eps` is
noise.  Points are consumed in insertion order. -/
noncomputable def dbscanCluster (eps : ℝ) (_minPts : ℕ) (points : List Point) :
    List (List Point) × List Point :=
  let merged := points.foldl (fun cs p =>
    let near := cs.filter (fun c => c.any (fun q => decide (Point.distance q p ≤ eps)))
    let far := cs.filter (fun c => !(c.any (fun q => decide (Point.distance q p ≤ eps))))
    (p :: near.flatten) :: far) []
  (merged.filter (fun c => decide (1 < c.length)),
    (merged.filter (fun c => decide (c.length ≤ 1))).flatten)

/-- Index of the main (largest) cluster: the scan keeps the first index
whose size strictly exceeds the best so far. -/
def mainClusterId (cs : List (List Point)) : ℕ :=
  (cs.enum.foldl (fun (best : ℕ × ℕ) ic =>
    if ic.2.length > best.2 then (ic.1, ic.2.length) else best) (0, 0)).1

/-- `detect_yandex_outliers` from src/lbs/yandex.rs.  The third argument is
the source's `_wifi_track` parameter, which the function body never
consults.  Configured bounds `CONFIG.locator.max_distance_cell` and
`CONFIG.yandex_lbs.max_distance_in_cluster` are parameters. -/
noncomputable def detect_yandex_outliers
    (yandexLbsResponses : List (String × Option YandexLbsResponse))
    (cellOpt : Option (List (String × Option YandexLbsResponse)))
    (_wifiTrack : Option WifiTrack)
    (maxDistanceCell maxDistanceInClusterLbs : ℝ) : Option OutliersYandex :=
  let ylrsFiltered := yandexLbsResponses.filter (fun e => e.2.isSome)
  let cell := cellOpt.getD []
  let cellPoints := create_cell_points cell
  let points := ylrsFiltered.enum.filterMap
    (fun (p : ℕ × (String × Option YandexLbsResponse)) => p.2.2.map (fun ylr =>
      ({ id := p.1, lon := ylr.location.point.lon,
         lat := ylr.location.point.lat } : Point)))
  let macs := ylrsFiltered.map (·.1)
  if ylrsFiltered.length = 1 then
    match points, cellPoints with
    | p0 :: _, c0 :: _ =>
      if p0.distance c0 > maxDistanceCell then
        some ⟨macs.filterMap (fun mac =>
          ((alookup yandexLbsResponses mac).join).map (fun ylr => (mac, ylr)))⟩
      else none
    | _, _ => none
  else if points.length = 2 then
    match points with
    | [p0, p1] =>
      if p0.distance p1 > maxDistanceInClusterLbs then
        let outliers := macs.filterMap (fun mac =>
          ((alookup yandexLbsResponses mac).join).bind (fun ylr =>
            match cellPoints with
            | c0 :: _ =>
              let yandexPoint : Point :=
                { id := 0, lon := ylr.location.point.lon,
                  lat := ylr.location.point.lat }
              if yandexPoint.distance c0 > maxDistanceCell then some (mac, ylr)
              else none
            | [] => some (mac, ylr)))
        if outliers.length > 0 then some ⟨outliers⟩ else none
      else none
    | _ => none
  else
    let discardedAndFiltered :=
      match cellPoints with
      | c0 :: _ =>
        let disc := points.filter (fun (p : Point) =>
          decide (p.distance c0 > maxDistanceCell))
        let filt := points.filter (fun (p : Point) =>
          !(decide (p.distance c0 > maxDistanceCell)))
        if disc.length > 0 ∧ disc.length = points.length then ([], points)
        else (disc, filt)
      | [] => ([], points)
    let clustersAndNoise :=
      dbscanCluster maxDistanceInClusterLbs 0 discardedAndFiltered.2
    let actualClusters := clustersAndNoise.1
    let noise0 := clustersAndNoise.2 ++ discardedAndFiltered.1
    let noise :=
      if actualClusters.length > 1 then
        noise0 ++ (actualClusters.enum.filterMap (fun ic =>
          if ic.1 = mainClusterId actualClusters then none else some ic.2)).flatten
      else noise0
    if noise.length = 0 then none
    else
      some ⟨noise.filterMap (fun p =>
        match macs[p.id]? with
        | some mac => ((alookup ylrsFiltered mac).join).map (fun ylr => (mac, ylr))
        | none => none)⟩

/-- `check_point_by_track` from src/lbs/yandex.rs (a function no caller
invokes): with a track present and its latest record holding at least one
Wi-Fi fix, mark every surviving response farther from that fix than
`min(MAX_DISTANCE, MAX_SCOOTER_SPEED · elapsed_hours · 1000)`.  The source
reads the current time `chrono::Utc::now().timestamp()`; it is the `tsNow`
parameter here. -/
noncomputable def check_point_by_track (tsNow : ℤ) :
    Option WifiTrack → List (String × Option YandexLbsResponse) →
      Option OutliersYandex
  | none, _ => none
  | some wt, ylrsFiltered =>
    (wt.records.getLast?).bind (fun wrtLast =>
      let outliers := ylrsFiltered.filterMap (fun e =>
        e.2.bind (fun ylr =>
          match wrtLast.wifi with
          | w0 :: _ =>
            let diffTs := ((tsNow - wrtLast.ts : ℤ) : ℝ) / (HOUR : ℝ)
            let dMax := min MAX_DISTANCE (MAX_SCOOTER_SPEED * diffTs * 1000)
            let pLast : Point := { id := 0, lon := w0.g.lon, lat := w0.g.lat }
            let pYandex : Point :=
              { id := 1, lon := ylr.location.point.lon,
                lat := ylr.location.point.lat }
            if pYandex.distance pLast > dMax then some (e.1, ylr) else none
          | [] => none))
      if outliers.length > 0 then some ⟨outliers⟩ else none)

/-- C6 counterexample: a surviving LBS point at `(lat 0, lon 90)` — about a
quarter of the Earth's circumference from the track's latest Wi-Fi fix at
`(0, 0)`, recorded at the same instant, so the claim's threshold
`min(60000, 25·0·1000) = 0` is exceeded — yet the LBS-outlier filter
returns no outlier at all: `detect_yandex_outliers` never consults the
track. -/
theorem detect_yandex_outliers_track_counterexample :
    detect_yandex_outliers [("aa:bb:cc:dd:ee:ff", some ⟨⟨⟨0, 90⟩, 20⟩⟩)] none
        (some ⟨"device-1", [⟨1000, some ⟨0, 0⟩, [⟨"ff:ee:dd:cc:bb:aa", -70, ⟨0, 0⟩⟩]⟩]⟩)
        1000 1700
        = none ∧
      Point.distance ⟨1, 90, 0⟩ ⟨0, 0, 0⟩
        > min MAX_DISTANCE
            (MAX_SCOOTER_SPEED * (((1000 - 1000 : ℤ) : ℝ) / (HOUR : ℝ)) * 1000) := by
  constructor
  · rfl
  · have hrhs : min MAX_DISTANCE
        (MAX_SCOOTER_SPEED * (((1000 - 1000 : ℤ) : ℝ) / (HOUR : ℝ)) * 1000) = 0 := by
      unfold MAX_DISTANCE MAX_SCOOTER_SPEED
      norm_num
    rw [hrhs]
    unfold Point.distance haversineDistance toRadians MEAN_EARTH_RADIUS
    simp only
    have harg : ((0 : ℝ) - 90) * Real.pi / 180 / 2 = -(Real.pi / 4) := by ring
    have hzero : ((0 : ℝ) - 0) * Real.pi / 180 / 2 = 0 := by ring
    have hlat : (0 : ℝ) * Real.pi / 180 = 0 := by ring
    rw [harg, hzero, hlat]
    rw [Real.sin_zero, Real.cos_zero, Real.sin_neg, Real.sin_pi_div_four]
    have hsq : (0 : ℝ) ^ 2 + 1 * 1 * (-(Real.sqrt 2 / 2)) ^ 2 = 1 / 2 := by
      have h2 : Real.sqrt 2 ^ 2 = 2 := Real.sq_sqrt (by norm_num)
      nlinarith [h2]
    rw [hsq]
    have hsqrt : Real.sqrt (1 / 2) = Real.sqrt 2 / 2 := by
      rw [show (1 / 2 : ℝ) = (Real.sqrt 2 / 2) ^ 2 by
        have h2 : Real.sqrt 2 ^ 2 = 2 := Real.sq_sqrt (by norm_num)
        nlinarith [h2]]
      exact Real.sqrt_sq (by positivity)
    rw [hsqrt, ← Real.sin_pi_div_four,
      Real.arcsin_sin (by linarith [Real.pi_pos]) (by linarith [Real.pi_pos])]
    have hpi := Real.pi_pos
    nlinarith [hpi]

/-- C6 amended: the LBS-outlier filter `detect_yandex_outliers` ignores the
device track entirely — its result is the same for every value of the
track argument — while the claimed rule, marking an LBS point whose
distance from the track's latest Wi-Fi fix exceeds
`min(MAX_DISTANCE, MAX_SCOOTER_SPEED · elapsed_hours · 1000)`, is
implemented only by the never-invoked helper `check_point_by_track`
(characterised here on a single surviving response). -/
theorem detect_yandex_outliers_ignores_track :
    (∀ ylrs cellOpt t mdc mdicl,
      detect_yandex_outliers ylrs cellOpt t mdc mdicl
        = detect_yandex_outliers ylrs cellOpt none mdc mdicl) ∧
      (∀ (tsNow : ℤ) (wt : WifiTrack) (wrtLast : WifiTrackRecord)
          (w0 : TrackWifi) (ws : List TrackWifi) (mac : String)
          (ylr : YandexLbsResponse),
        wt.records.getLast? = some wrtLast → wrtLast.wifi = w0 :: ws →
        (check_point_by_track tsNow (some wt) [(mac, some ylr)]
            = some ⟨[(mac, ylr)]⟩ ↔
          Point.distance
              ⟨1, ylr.location.point.lon, ylr.location.point.lat⟩
              ⟨0, w0.g.lon, w0.g.lat⟩
            > min MAX_DISTANCE
                (MAX_SCOOTER_SPEED * (((tsNow - wrtLast.ts : ℤ) : ℝ) / (HOUR : ℝ))
                  * 1000))) := by
  constructor
  · intro ylrs cellOpt t mdc mdicl
    rfl
  · intro tsNow wt wrtLast w0 ws mac ylr hlast hwifi
    simp only [check_point_by_track]
    rw [hlast]
    simp only [Option.some_bind]
    rw [hwifi]
    simp only [List.filterMap_cons, List.filterMap_nil, Option.some_bind]
    by_cases hd : Point.distance
        ⟨1, ylr.location.point.lon, ylr.location.point.lat⟩
        ⟨0, w0.g.lon, w0.g.lat⟩
      > min MAX_DISTANCE
          (MAX_SCOOTER_SPEED * (((tsNow - wrtLast.ts : ℤ) : ℝ) / (HOUR : ℝ)) * 1000)
    · rw [if_pos hd]
      simp only [List.length_cons, List.length_nil]
      rw [if_pos (by omega)]
      exact iff_of_true rfl hd
    · rw [if_neg hd]
      simp only [List.length_nil]
      rw [if_neg (by omega)]
      exact iff_of_false (by simp) hd

/-- Witness for the amended C6: the filter's track-independence and the
helper's rule at a concrete track and response (same instant, threshold 0,
point a quarter turn away, hence marked by the helper). -/
theorem detect_yandex_outliers_ignores_track_witness :
    detect_yandex_outliers [("aa:bb:cc:dd:ee:ff", some ⟨⟨⟨0, 90⟩, 20⟩⟩)] none
        (some ⟨"device-1", [⟨1000, some ⟨0, 0⟩, [⟨"ff:ee:dd:cc:bb:aa", -70, ⟨0, 0⟩⟩]⟩]⟩)
        1000 1700
      = detect_yandex_outliers [("aa:bb:cc:dd:ee:ff", some ⟨⟨⟨0, 90⟩, 20⟩⟩)] none
          none 1000 1700 ∧
      (check_point_by_track 1000
          (some ⟨"device-1", [⟨1000, some ⟨0, 0⟩, [⟨"ff:ee:dd:cc:bb:aa", -70, ⟨0, 0⟩⟩]⟩]⟩)
          [("aa:bb:cc:dd:ee:ff", some ⟨⟨⟨0, 90⟩, 20⟩⟩)]
          = some ⟨[("aa:bb:cc:dd:ee:ff", ⟨⟨⟨0, 90⟩, 20⟩⟩)]⟩ ↔
        Point.distance ⟨1, 90, 0⟩ ⟨0, 0, 0⟩
          > min MAX_DISTANCE
              (MAX_SCOOTER_SPEED * (((1000 - 1000 : ℤ) : ℝ) / (HOUR : ℝ)) * 1000)) :=
  ⟨(detect_yandex_outliers_ignores_track).1
      [("aa:bb:cc:dd:ee:ff", some ⟨⟨⟨0, 90⟩, 20⟩⟩)] none
      (some ⟨"device-1", [⟨1000, some ⟨0, 0⟩, [⟨"ff:ee:dd:cc:bb:aa", -70, ⟨0, 0⟩⟩]⟩]⟩)
      1000 1700,
    (detect_yandex_outliers_ignores_track).2 1000
      ⟨"device-1", [⟨1000, some ⟨0, 0⟩, [⟨"ff:ee:dd:cc:bb:aa", -70, ⟨0, 0⟩⟩]⟩]⟩
      ⟨1000, some ⟨0, 0⟩, [⟨"ff:ee:dd:cc:bb:aa", -70, ⟨0, 0⟩⟩]⟩
      ⟨"ff:ee:dd:cc:bb:aa", -70, ⟨0, 0⟩⟩ [] "aa:bb:cc:dd:ee:ff" ⟨⟨⟨0, 90⟩, 20⟩⟩
      rfl rfl⟩

/-! ## C10: report ingestion ignores observations without an LBS entry
(src/services/submission/report.rs, `Wifi::should_be_ignored` and the Wi-Fi
loop of `extract_from_report`) -/

/-- `CellRadio` from src/db/model.rs. -/
inductive CellRadio
  | gsm
  | wcdma
  | lte
  | nr

/-- `Transmitter` from src/db/model.rs. -/
inductive Transmitter
  | cell (radio : CellRadio) (country network : ℤ) (area : ℤ) (cellId : ℤ)
      (unit : ℤ) (signal_strength : Option ℝ) (age : Option ℤ)
  | wifi (mac : String) (signal_strength : Option ℝ) (age : Option ℤ)
  | bluetooth (mac : String) (signal_strength : Option ℝ) (age : Option ℤ)

/-- The MAC of a Wi-Fi transmitter entry, `none` for the other variants. -/
def Transmitter.wifiMac : Transmitter → Option String
  | .wifi mac _ _ => some mac
  | _ => none

/-- `Wifi` from src/services/submission/report.rs (one reported AP). -/
structure Wifi where
  mac_address : String
  ssid : Option String
  age : Option ℤ
  signal_strength : Option ℝ

/-- `Position` from src/services/submission/report.rs. -/
structure Position where
  latitude : ℝ
  longitude : ℝ
  speed : Option ℝ
  age : Option ℤ
  accuracy : Option ℝ
  heading : Option ℝ

/-- `Report` from src/services/submission/report.rs.  The cell, cell-tower
and bluetooth fields are resolved before the Wi-Fi loop and are not
consulted by the embedded fragment, so they are omitted here. -/
structure Report where
  timestamp : ℤ
  device_id : Option String
  position : Position
  wifi_access_points : Option (List Wifi)

/-- `WIFI_SSID_IGNORED` from src/constants.rs. -/
def WIFI_SSID_IGNORED : List String := ["carcam"]

/-- `MacAddr` from src/services/helper/macaddr.rs (six octets). -/
structure MacAddr where
  o0 : ℕ
  o1 : ℕ
  o2 : ℕ
  o3 : ℕ
  o4 : ℕ
  o5 : ℕ

/-- Value of one hexadecimal digit character. -/
def hexDigitVal (c : Char) : Option ℕ :=
  if '0' ≤ c ∧ c ≤ '9' then some (c.toNat - '0'.toNat)
  else if 'a' ≤ c ∧ c ≤ 'f' then some (c.toNat - 'a'.toNat + 10)
  else if 'A' ≤ c ∧ c ≤ 'F' then some (c.toNat - 'A'.toNat + 10)
  else none

/-- `u8::from_str_radix(s, 16)`: an optional leading `+`, then at least one
hex digit, with the value required to fit in a byte. -/
def parseHexByte (s : String) : Option ℕ :=
  let ds := if s.data.head? = some '+' then s.data.tail else s.data
  if ds.isEmpty then none
  else
    (ds.foldl (fun acc c => acc.bind (fun v =>
      (hexDigitVal c).map (fun d => 16 * v + d))) (some 0)).bind
      (fun v => if v < 256 then some v else none)

/-- `MacAddr::from_str`: split on `':'`, require exactly six components,
each a parsable byte.  (All parse and arity failures collapse to `none`.) -/
def MacAddr.from_str (s : String) : Option MacAddr :=
  let parts := s.splitOn ":"
  if parts.length ≠ 6 then none
  else
    match parts.mapM parseHexByte with
    | some [b0, b1, b2, b3, b4, b5] => some ⟨b0, b1, b2, b3, b4, b5⟩
    | _ => none

/-- `MacAddr::is_local`: the locally-administered bit (0x02) of the first
octet is set. -/
def MacAddr.is_local (m : MacAddr) : Bool := m.o0 &&& 2 = 2

/-- The SSID rejection test of `should_be_ignored`:
`WIFI_SSID_IGNORED.iter().any(|x| ssid.to_lowercase().contains(x))`. -/
def ssidIgnored (ssid : String) : Bool :=
  WIFI_SSID_IGNORED.any (fun si =>
    decide (si.data.IsInfix (ssid.data.map Char.toLower)))

/-- `is_ignore_by_cell` from src/services/submission/report.rs (its pure
decision; the cache write-back and the accuracy lookup feeding it are
side effects outside the returned value).  Over the first cell entry only:
inside the anchor's `max_distance_cell` radius answers `some false`
(GNSS trusted), outside answers `some true`; with no cell anchor, `none`. -/
noncomputable def is_ignore_by_cell
    (ylrsCellOpt : Option (List (String × Option YandexLbsResponse)))
    (pOrigin : Point) (maxDistanceCell : ℝ) : Option Bool :=
  match ylrsCellOpt with
  | none => none
  | some ylrsCell =>
    let distanceCellPoint :=
      match ylrsCell.head? with
      | some e => e.2.map (fun ylrCell =>
          Point.distance
            ⟨2, ylrCell.location.point.lon, ylrCell.location.point.lat⟩ pOrigin)
      | none => none
    match distanceCellPoint with
    | some d => if d < maxDistanceCell then some false else some true
    | none => none

/-- `Wifi::should_be_ignored` from src/services/submission/report.rs.
Config flags (`laa_filter`, `altergeo_lbs.enabled`) and bounds are
parameters; `altergeoResponse` is the oracle for the AlterGeo cross-check
(`Some` = a successful response carrying `iamhere` coordinates). -/
noncomputable def wifiShouldBeIgnored (w : Wifi) (report : Report)
    (yandexLbsResponses : List (String × Option YandexLbsResponse))
    (ylrsCellOpt : Option (List (String × Option YandexLbsResponse)))
    (validGps : Bool) (laaFilter altergeoEnabled : Bool)
    (altergeoResponse : Option Gnss)
    (maxDistanceCell maxDistanceInClusterLbs : ℝ) : Bool :=
  if laaFilter ∧ (match MacAddr.from_str w.mac_address with
      | some m => m.is_local
      | none => false) then true
  else if (match w.ssid with
      | some ssid => ssidIgnored ssid
      | none => false) then true
  else
    let pOrigin : Point := ⟨0, report.position.longitude, report.position.latitude⟩
    let ignoreByCell := is_ignore_by_cell ylrsCellOpt pOrigin maxDistanceCell
    if validGps ∧ ignoreByCell.isSome then ignoreByCell.getD false
    else
      match alookup yandexLbsResponses w.mac_address with
      | some (some ylr) =>
        let pYandex : Point := ⟨1, ylr.location.point.lon, ylr.location.point.lat⟩
        let dYandex := pOrigin.distance pYandex
        if dYandex > maxDistanceInClusterLbs then
          if ignoreByCell.isSome then ignoreByCell.getD false
          else if validGps then false
          else if altergeoEnabled then
            match altergeoResponse with
            | some iamhere =>
              let pAg : Point := ⟨2, iamhere.lon, iamhere.lat⟩
              if pOrigin.distance pAg < maxDistanceInClusterLbs then false
              else true
            | none => true
          else true
        else false
      | _ => true

/-- The free function `should_be_ignored(position, transmitter_age)`:
observations whose age differs from the position age by more than 30 000 ms
or whose implied travel exceeds 150 000 m are dropped. -/
noncomputable def shouldBeIgnoredByAge (position : Position)
    (transmitterAge : Option ℤ) : Bool :=
  match transmitterAge, position.age with
  | some ta, some pa =>
    let diff := (pa - ta).natAbs
    if diff > 30000 then true
    else if position.speed.getD 0 * (diff : ℝ) > 150000 then true
    else false
  | _, _ => false

/-- The Wi-Fi loop of `extract_from_report`: observations passing both
ignore checks are appended to `wifi_valid` and registered as Wi-Fi
transmitters. -/
noncomputable def extractWifiLoop (wifiVec : List Wifi) (report : Report)
    (yandexLbsResponses : List (String × Option YandexLbsResponse))
    (ylrsCellOpt : Option (List (String × Option YandexLbsResponse)))
    (validGps : Bool) (laaFilter altergeoEnabled : Bool)
    (altergeoResponse : Option Gnss)
    (maxDistanceCell maxDistanceInClusterLbs : ℝ) :
    List Transmitter × List Wifi :=
  wifiVec.foldl (fun acc wifi =>
    if wifiShouldBeIgnored wifi report yandexLbsResponses ylrsCellOpt validGps
        laaFilter altergeoEnabled altergeoResponse maxDistanceCell
        maxDistanceInClusterLbs then acc
    else if shouldBeIgnoredByAge report.position wifi.age then acc
    else (acc.1 ++ [Transmitter.wifi wifi.mac_address wifi.signal_strength wifi.age],
      acc.2 ++ [wifi])) ([], [])

/-- `helper::round(x, decimals)`:
`(x * 10^decimals).round() / 10^decimals`. -/
noncomputable def helperRound (x : ℝ) (decimals : ℕ) : ℝ :=
  (rustRound (x * 10 ^ decimals) : ℝ) / 10 ^ decimals

/-- The per-AP entries of the `WifiTrackRecord` built by
`process_wifi_track` from `wifi_valid`: a tracked fix for APs with a cached
LBS response, the all-default entry (empty MAC) otherwise. -/
noncomputable def trackRecordWifi (wifiValid : List Wifi)
    (yandexLbsResponses : List (String × Option YandexLbsResponse)) :
    List TrackWifi :=
  wifiValid.map (fun wv =>
    match alookup yandexLbsResponses wv.mac_address with
    | some (some ylr) =>
      { m := wv.mac_address
        r := wv.signal_strength.getD (-90)
        g := { lon := helperRound ylr.location.point.lon 6
               lat := helperRound ylr.location.point.lat 6 } }
    | _ => { m := "", r := 0, g := { lon := 0, lat := 0 } })

theorem wifiShouldBeIgnored_no_entry (w : Wifi) (report : Report)
    (lbs : List (String × Option YandexLbsResponse))
    (cellOpt : Option (List (String × Option YandexLbsResponse)))
    (validGps laaFilter agEnabled : Bool) (agResp : Option Gnss)
    (mdc mdicl : ℝ)
    (hlbs : (alookup lbs w.mac_address).join = none)
    (hres : ¬(validGps = true ∧
      is_ignore_by_cell cellOpt
        ⟨0, report.position.longitude, report.position.latitude⟩ mdc
        = some false)) :
    wifiShouldBeIgnored w report lbs cellOpt validGps laaFilter agEnabled
      agResp mdc mdicl = true := by
  unfold wifiShouldBeIgnored
  split
  · rfl
  split
  · rfl
  dsimp only
  by_cases hgate : validGps = true ∧
      (is_ignore_by_cell cellOpt
        ⟨0, report.position.longitude, report.position.latitude⟩ mdc).isSome = true
  · rw [if_pos hgate]
    rcases hsome : is_ignore_by_cell cellOpt
        ⟨0, report.position.longitude, report.position.latitude⟩ mdc with _ | b
    · rw [hsome] at hgate
      simp at hgate
    · cases b
      · exact absurd ⟨hgate.1, hsome⟩ hres
      · rfl
  · rw [if_neg hgate]
    rcases hl : alookup lbs w.mac_address with _ | ylro
    · rfl
    · rcases ylro with _ | ylr
      · rfl
      · rw [hl] at hlbs
        exact absurd hlbs (by simp)

/-- C10: in the report ingestor, an observation whose MAC has no LBS
response (the lookup map entry is absent or `None`) and whose GNSS is not
rescued by a cell anchor within `max_distance_cell` combined with
cached-Wi-Fi agreement (`valid_gps`) is ignored by
`Wifi::should_be_ignored` regardless of the AlterGeo oracle (the
cross-check is unreachable without a Yandex point), so it is appended
neither to the registered transmitters nor to `wifi_valid`, and hence
contributes no entry to the device-track record built from `wifi_valid`. -/
theorem wifi_without_lbs_entry_ignored (w : Wifi) (report : Report)
    (lbs : List (String × Option YandexLbsResponse))
    (cellOpt : Option (List (String × Option YandexLbsResponse)))
    (validGps laaFilter agEnabled : Bool) (agResp : Option Gnss)
    (mdc mdicl : ℝ) (wifiVec : List Wifi)
    (hlbs : (alookup lbs w.mac_address).join = none)
    (hres : ¬(validGps = true ∧
      is_ignore_by_cell cellOpt
        ⟨0, report.position.longitude, report.position.latitude⟩ mdc
        = some false)) :
    wifiShouldBeIgnored w report lbs cellOpt validGps laaFilter agEnabled
        agResp mdc mdicl = true ∧
      (∀ t ∈ (extractWifiLoop wifiVec report lbs cellOpt validGps laaFilter
          agEnabled agResp mdc mdicl).1, t.wifiMac ≠ some w.mac_address) ∧
      (∀ v ∈ (extractWifiLoop wifiVec report lbs cellOpt validGps laaFilter
          agEnabled agResp mdc mdicl).2, v.mac_address ≠ w.mac_address) ∧
      (w.mac_address ≠ "" →
        ∀ tw ∈ trackRecordWifi (extractWifiLoop wifiVec report lbs cellOpt
          validGps laaFilter agEnabled agResp mdc mdicl).2 lbs,
          tw.m ≠ w.mac_address) := by
  have hign : ∀ v : Wifi, v.mac_address = w.mac_address →
      wifiShouldBeIgnored v report lbs cellOpt validGps laaFilter agEnabled
        agResp mdc mdicl = true := by
    intro v hv
    exact wifiShouldBeIgnored_no_entry v report lbs cellOpt validGps laaFilter
      agEnabled agResp mdc mdicl (by rw [hv]; exact hlbs) hres
  have hloop : ∀ (acc : List Transmitter × List Wifi),
      (∀ t ∈ acc.1, t.wifiMac ≠ some w.mac_address) →
      (∀ v ∈ acc.2, v.mac_address ≠ w.mac_address) →
      (∀ t ∈ (wifiVec.foldl (fun acc wifi =>
          if wifiShouldBeIgnored wifi report lbs cellOpt validGps laaFilter
              agEnabled agResp mdc mdicl then acc
          else if shouldBeIgnoredByAge report.position wifi.age then acc
          else (acc.1 ++ [Transmitter.wifi wifi.mac_address wifi.signal_strength
            wifi.age], acc.2 ++ [wifi])) acc).1,
        t.wifiMac ≠ some w.mac_address) ∧
      (∀ v ∈ (wifiVec.foldl (fun acc wifi =>
          if wifiShouldBeIgnored wifi report lbs cellOpt validGps laaFilter
              agEnabled agResp mdc mdicl then acc
          else if shouldBeIgnoredByAge report.position wifi.age then acc
          else (acc.1 ++ [Transmitter.wifi wifi.mac_address wifi.signal_strength
            wifi.age], acc.2 ++ [wifi])) acc).2,
        v.mac_address ≠ w.mac_address) := by
    induction wifiVec with
    | nil => intro acc h1 h2; exact ⟨h1, h2⟩
    | cons wifi rest ih =>
      intro acc h1 h2
      rw [List.foldl_cons]
      by_cases hw : wifiShouldBeIgnored wifi report lbs cellOpt validGps
          laaFilter agEnabled agResp mdc mdicl
      · rw [if_pos hw]
        exact ih acc h1 h2
      · rw [if_neg hw]
        by_cases ha : shouldBeIgnoredByAge report.position wifi.age
        · rw [if_pos ha]
          exact ih acc h1 h2
        · rw [if_neg ha]
          have hmac : wifi.mac_address ≠ w.mac_address := by
            intro heq
            exact hw (hign wifi heq)
          refine ih _ ?_ ?_
          · intro t ht
            rcases List.mem_append.mp ht with h | h
            · exact h1 t h
            · simp only [List.mem_singleton] at h
              subst h
              simp [Transmitter.wifiMac, hmac]
          · intro v hv
            rcases List.mem_append.mp hv with h | h
            · exact h2 v h
            · simp only [List.mem_singleton] at h
              subst h
              exact hmac
  have hmain := hloop ([], []) (by simp) (by simp)
  refine ⟨hign w rfl, hmain.1, hmain.2, ?_⟩
  intro hne tw htw
  unfold trackRecordWifi at htw
  rcases List.mem_map.mp htw with ⟨wv, hwv, hmap⟩
  have hvne := hmain.2 wv hwv
  match hl : alookup lbs wv.mac_address with
  | some (some ylr) =>
    rw [hl] at hmap
    simp only at hmap
    rw [← hmap]
    exact hvne
  | some none =>
    rw [hl] at hmap
    simp only at hmap
    rw [← hmap]
    exact fun h => hne h.symm
  | none =>
    rw [hl] at hmap
    simp only at hmap
    rw [← hmap]
    exact fun h => hne h.symm

/-- Witness for C10: a concrete observation with an empty LBS map, no cell
anchor and `valid_gps = false`. -/
theorem wifi_without_lbs_entry_ignored_witness :
    wifiShouldBeIgnored ⟨"aa:bb:cc:dd:ee:ff", none, none, some (-60)⟩
        ⟨1700000000000, some "device-1", ⟨55.75, 37.62, none, none, none, none⟩,
          some [⟨"aa:bb:cc:dd:ee:ff", none, none, some (-60)⟩]⟩
        [] none false false false none 1000 1700 = true ∧
      (∀ t ∈ (extractWifiLoop [⟨"aa:bb:cc:dd:ee:ff", none, none, some (-60)⟩]
          ⟨1700000000000, some "device-1", ⟨55.75, 37.62, none, none, none, none⟩,
            some [⟨"aa:bb:cc:dd:ee:ff", none, none, some (-60)⟩]⟩
          [] none false false false none 1000 1700).1,
        t.wifiMac ≠ some "aa:bb:cc:dd:ee:ff") ∧
      (∀ v ∈ (extractWifiLoop [⟨"aa:bb:cc:dd:ee:ff", none, none, some (-60)⟩]
          ⟨1700000000000, some "device-1", ⟨55.75, 37.62, none, none, none, none⟩,
            some [⟨"aa:bb:cc:dd:ee:ff", none, none, some (-60)⟩]⟩
          [] none false false false none 1000 1700).2,
        v.mac_address ≠ "aa:bb:cc:dd:ee:ff") ∧
      (("aa:bb:cc:dd:ee:ff" : String) ≠ "" →
        ∀ tw ∈ trackRecordWifi (extractWifiLoop
            [⟨"aa:bb:cc:dd:ee:ff", none, none, some (-60)⟩]
            ⟨1700000000000, some "device-1", ⟨55.75, 37.62, none, none, none, none⟩,
              some [⟨"aa:bb:cc:dd:ee:ff", none, none, some (-60)⟩]⟩
            [] none false false false none 1000 1700).2 [],
          tw.m ≠ "aa:bb:cc:dd:ee:ff") :=
  wifi_without_lbs_entry_ignored ⟨"aa:bb:cc:dd:ee:ff", none, none, some (-60)⟩
    ⟨1700000000000, some "device-1", ⟨55.75, 37.62, none, none, none, none⟩,
      some [⟨"aa:bb:cc:dd:ee:ff", none, none, some (-60)⟩]⟩
    [] none false false false none 1000 1700
    [⟨"aa:bb:cc:dd:ee:ff", none, none, some (-60)⟩]
    (by simp [alookup]) (by simp [is_ignore_by_cell])

end Locator
